import Mathlib

/-!
Shallow embedding of the `wp_repository` package (files
`wp_repository/wp_repository_elem.py`, `wp_repository/wp_repository_sl3.py`
and `build/lib/wp_repository/wp_sql_statement.py`):
a metadata-driven SQL statement builder (`RepositoryElement` together with
`AttributeMapping` / `AttributeMap`), the statement container `SQLStatement`,
and the connection-owning `SQLiteRepository` wrapper.

Python runtime values that flow through statements are modelled by `Value`;
Python exceptions by `PyErr`; fallible Python code returns `Except PyErr`.
-/

set_option autoImplicit false

namespace WpRepository

/-- Python exceptions raised by the embedded code. -/
inductive PyErr where
  | valueError (msg : String)
  | typeError (msg : String)
  | indexError (msg : String)
deriving DecidableEq

/-- A `datetime.datetime` value (date and time of day, microsecond precision). -/
structure Datetime where
  year : Nat
  month : Nat
  day : Nat
  hour : Nat
  minute : Nat
  second : Nat
  microsecond : Nat
deriving DecidableEq

/-- Python runtime values appearing as entity attributes, SQL parameters and
raw column values: `None`, `int`, `str`, `float`/decimal (carried opaquely as a
rational — the code never computes with them), `datetime` and `list`. -/
inductive Value where
  | vNone : Value
  | vInt (n : Int) : Value
  | vStr (s : String) : Value
  | vFloat (q : Rat) : Value
  | vDatetime (d : Datetime) : Value
  | vList (l : List Value) : Value

/-- The Python type objects used as `cls_attr_type` in attribute mappings:
`str`, `int`, `float` and `datetime.datetime`. -/
inductive PType where
  | pStr : PType
  | pInt : PType
  | pFloat : PType
  | pDatetime : PType
deriving DecidableEq

/-- `isinstance(v, t)` for the modelled value and type universes. -/
def isinstance : Value → PType → Bool
  | .vStr _, .pStr => true
  | .vInt _, .pInt => true
  | .vFloat _, .pFloat => true
  | .vDatetime _, .pDatetime => true
  | _, _ => false

/-- Left zero-padding of a numeral to a given width (for `datetime` rendering). -/
def padNum (width n : Nat) : String :=
  let s := toString n
  String.mk (List.replicate (width - s.length) (Char.ofNat 48)) ++ s

/-- `str()` of a `datetime` value, as Python renders it. -/
def datetimeStr (d : Datetime) : String :=
  padNum 4 d.year ++ "-" ++ padNum 2 d.month ++ "-" ++ padNum 2 d.day ++ " " ++
  padNum 2 d.hour ++ ":" ++ padNum 2 d.minute ++ ":" ++ padNum 2 d.second ++
  (if d.microsecond = 0 then "" else "." ++ padNum 6 d.microsecond)

/-- The apostrophe character, used by Python `repr` of strings. -/
def quoteChar : String := String.singleton (Char.ofNat 39)

mutual

/-- Python `str(v)`. -/
def pyStr : Value → String
  | .vNone => "None"
  | .vInt n => toString n
  | .vStr s => s
  | .vFloat q => toString q
  | .vDatetime d => datetimeStr d
  | .vList l => "[" ++ pyStrList l ++ "]"

/-- Comma-joined `repr` of list items, as in Python `str` of a list. -/
def pyStrList : List Value → String
  | [] => ""
  | [v] => pyReprItem v
  | v :: rest => pyReprItem v ++ ", " ++ pyStrList rest

/-- `repr(v)` as used for elements inside a list rendering (strings quoted). -/
def pyReprItem : Value → String
  | .vStr s => quoteChar ++ s ++ quoteChar
  | v => pyStr v

end

/-- Splitting a character list at every occurrence of a separator
(the single-character case of Python `str.split(sep)`). -/
def charSplit (sep : Char) : List Char → List (List Char)
  | [] => [[]]
  | c :: rest =>
      match charSplit sep rest with
      | [] => if c = sep then [[], []] else [[c]]
      | g :: gs => if c = sep then [] :: g :: gs else (c :: g) :: gs

/-- Splitting a string at every occurrence of a separator character. -/
def sSplitOn (s : String) (sep : Char) : List String :=
  (charSplit sep s.data).map String.mk

/-- The numeric value of a run of decimal digit characters. -/
def natOfDigits (l : List Char) : Nat :=
  l.foldl (fun n c => n * 10 + (c.toNat - 48)) 0

/-- A non-empty all-digit character run parsed as a natural number. -/
def digitsToNat? (l : List Char) : Option Nat :=
  if 1 ≤ l.length ∧ l.all Char.isDigit then some (natOfDigits l) else none

/-- A non-empty all-digit string parsed as a natural number, `none` otherwise
or when longer than `maxLen` (strptime field widths). -/
def parseField (s : String) (maxLen : Nat) : Option Nat :=
  if s.length ≤ maxLen then digitsToNat? s.data else none

/-- A non-empty all-digit string parsed as a natural number (no width bound). -/
def parseNatAll (s : String) : Option Nat :=
  digitsToNat? s.data

/-- Python `str.strip()`: the string without leading and trailing
whitespace. -/
def pyStrip (s : String) : String :=
  String.mk (((s.data.dropWhile Char.isWhitespace).reverse.dropWhile Char.isWhitespace).reverse)

/-- Python `int(s)` on strings: optional surrounding whitespace, optional sign,
then a non-empty digit run. -/
def pyIntParse (s : String) : Option Int :=
  match (pyStrip s).data with
  | '-' :: rest => (digitsToNat? rest).map (fun n => -(n : Int))
  | '+' :: rest => (digitsToNat? rest).map (fun n => (n : Int))
  | ds => (digitsToNat? ds).map (fun n => (n : Int))

/-- Python `float(s)` on unsigned bodies: `digits`, `digits.digits`,
`.digits` or `digits.` (exponent forms are not used by this code base). -/
def pyFloatParseBody (t : String) : Option Rat :=
  match charSplit '.' t.data with
  | [ip] => (digitsToNat? ip).map (fun n => (n : Rat))
  | [ip, fp] =>
      if (1 ≤ ip.length ∨ 1 ≤ fp.length) ∧ ip.all Char.isDigit ∧ fp.all Char.isDigit then
        some ((natOfDigits ip : Rat) + (natOfDigits fp : Rat) / ((10 : Rat) ^ fp.length))
      else none
  | _ => none

/-- Python `float(s)` on strings: whitespace, optional sign, decimal body. -/
def pyFloatParse (s : String) : Option Rat :=
  match (pyStrip s).data with
  | '-' :: rest => (pyFloatParseBody (String.mk rest)).map (fun q => -q)
  | '+' :: rest => pyFloatParseBody (String.mk rest)
  | ds => pyFloatParseBody (String.mk ds)

/-- Gregorian leap-year rule. -/
def isLeapYear (y : Nat) : Bool := y % 4 == 0 && (y % 100 != 0 || y % 400 == 0)

/-- Number of days of month `m` in year `y`. -/
def daysInMonth (y m : Nat) : Nat :=
  if m = 2 then (if isLeapYear y then 29 else 28)
  else if m = 4 ∨ m = 6 ∨ m = 9 ∨ m = 11 then 30
  else 31

/-- `datetime.strptime(s, "%Y-%m-%d %H:%M:%S")`: fixed-point timestamp format
without fractional seconds, with calendar validation. -/
def strptimeBase (s : String) : Except PyErr Datetime :=
  match sSplitOn s ' ' with
  | [datePart, timePart] =>
    match sSplitOn datePart '-', sSplitOn timePart ':' with
    | [ys, mos, ds], [hs, mis, secs] =>
      match parseField ys 4, parseField mos 2, parseField ds 2,
            parseField hs 2, parseField mis 2, parseField secs 2 with
      | some y, some mo, some d, some h, some mi, some sec =>
          if 1 ≤ y ∧ 1 ≤ mo ∧ mo ≤ 12 ∧ 1 ≤ d ∧ d ≤ daysInMonth y mo ∧
             h ≤ 23 ∧ mi ≤ 59 ∧ sec ≤ 59 then
            .ok ⟨y, mo, d, h, mi, sec, 0⟩
          else .error (.valueError ("time data does not match format: " ++ s))
      | _, _, _, _, _, _ => .error (.valueError ("time data does not match format: " ++ s))
    | _, _ => .error (.valueError ("time data does not match format: " ++ s))
  | _ => .error (.valueError ("time data does not match format: " ++ s))

/-- `datetime.strptime(s, "%Y-%m-%d %H:%M:%S.%f")`: same format with a
mandatory fractional-second field of one to six digits. -/
def strptimeFrac (s : String) : Except PyErr Datetime :=
  match sSplitOn s '.' with
  | [main, frac] =>
      if 1 ≤ frac.length ∧ frac.length ≤ 6 ∧ frac.data.all Char.isDigit then
        match digitsToNat? frac.data with
        | some f =>
            match strptimeBase main with
            | .ok dt => .ok { dt with microsecond := f * 10 ^ (6 - frac.length) }
            | .error e => .error e
        | none => .error (.valueError ("time data does not match format: " ++ s))
      else .error (.valueError ("time data does not match format: " ++ s))
  | _ => .error (.valueError ("time data does not match format: " ++ s))

/-- Generic Python constructor call `cls(v)` for the modelled types: `str(v)`
always succeeds, `int(v)` / `float(v)` convert numerics and parse strings,
`datetime(v)` always fails (the constructor needs year, month and day). -/
def genericConv : PType → Value → Except PyErr Value
  | .pStr, v => .ok (.vStr (pyStr v))
  | .pInt, .vInt n => .ok (.vInt n)
  | .pInt, .vFloat q => .ok (.vInt (q.num.tdiv (q.den : Int)))
  | .pInt, .vStr s =>
      match pyIntParse s with
      | some n => .ok (.vInt n)
      | none => .error (.valueError ("invalid literal for int: " ++ s))
  | .pInt, _ => .error (.typeError "int argument must be a string or a number")
  | .pFloat, .vFloat q => .ok (.vFloat q)
  | .pFloat, .vInt n => .ok (.vFloat (n : Rat))
  | .pFloat, .vStr s =>
      match pyFloatParse s with
      | some q => .ok (.vFloat q)
      | none => .error (.valueError ("could not convert string to float: " ++ s))
  | .pFloat, _ => .error (.typeError "float argument must be a string or a number")
  | .pDatetime, _ => .error (.typeError "datetime constructor requires year, month and day")

/-- `RepositoryElement._type_conversion(cls_attr_type, db_attr_value)`:
identity when the value already has the target type; for a textual value and
a `datetime` target, `strptime` with the fractional format when the value
contains a dot and the plain format otherwise; a generic constructor call in
every other case. -/
def type_conversion (cls_attr_type : PType) (db_attr_value : Value) : Except PyErr Value :=
  if isinstance db_attr_value cls_attr_type then .ok db_attr_value
  else match db_attr_value with
  | .vStr s =>
      if cls_attr_type = .pDatetime then
        if s.data.contains '.' then (strptimeFrac s).map Value.vDatetime
        else (strptimeBase s).map Value.vDatetime
      else genericConv cls_attr_type db_attr_value
  | _ => genericConv cls_attr_type db_attr_value

/-- `len(v)` as used on the `IN` criterion value: defined for lists and
strings, a `TypeError` otherwise. -/
def pyLen : Value → Except PyErr Nat
  | .vList l => .ok l.length
  | .vStr s => .ok s.length
  | _ => .error (.typeError "object has no len()")

/-- `wp_sql_statement.SQLStatement`: a SQL text (which starts out as `None`,
not as the empty string) and an ordered parameter list. -/
structure SQLStatement where
  stmt_text : Option String
  stmt_params : List Value

namespace SQLStatement

/-- `SQLStatement.__init__`: `stmt_text = None`, `stmt_params = []`. -/
def mkEmpty : SQLStatement := ⟨none, []⟩

/-- Direct assignment `stmt.stmt_text = s`. -/
def set_text (st : SQLStatement) (s : String) : SQLStatement :=
  { st with stmt_text := some s }

/-- `SQLStatement.append_text`: `self.stmt_text = self.stmt_text + stmt_text`;
raises a `TypeError` when `stmt_text` is still `None` (Python evaluates
`None + str`). -/
def append_text (st : SQLStatement) (s : String) : Except PyErr SQLStatement :=
  match st.stmt_text with
  | none => .error (.typeError "unsupported operand type(s) for +: NoneType and str")
  | some t => .ok { st with stmt_text := some (t ++ s) }

/-- `SQLStatement.append_param`: a list value extends the parameter list
element by element, any other value is appended as a single parameter. -/
def append_param (st : SQLStatement) (p : Value) : SQLStatement :=
  match p with
  | .vList l => { st with stmt_params := st.stmt_params ++ l }
  | _ => { st with stmt_params := st.stmt_params ++ [p] }

end SQLStatement

/-- The parameters that a single `append_param` call adds: the elements of a
list value, or the value itself as a singleton. -/
def appendedParams : Value → List Value
  | .vList l => l
  | v => [v]

/-- `wp_repository_elem.AttributeMapping`: one column-to-attribute
correspondence. `db_key` is `0` (not part of the key), `1` (primary key) or
`2` (auto-increment primary key). -/
structure AttributeMapping where
  select_rank : Int
  cl_attr_name : String
  cl_attr_type : PType
  db_attr_name : String
  db_key : Nat
  inc_insert : Bool
  inc_update : Bool
deriving DecidableEq

namespace AttributeMapping

/-- `AttributeMapping.is_db_key`: `self._db_key != 0`. -/
def is_db_key (m : AttributeMapping) : Bool := m.db_key != 0

/-- `AttributeMapping.is_autoincrement_key`: `self._db_key == 2`. -/
def is_autoincrement_key (m : AttributeMapping) : Bool := m.db_key == 2

/-- `AttributeMapping.include_in_insert`:
`self._inc_insert and not self.is_autoincrement_key`. -/
def include_in_insert (m : AttributeMapping) : Bool :=
  m.inc_insert && !m.is_autoincrement_key

/-- `AttributeMapping.include_in_update`:
`self._inc_update and not self.is_autoincrement_key and not self.is_db_key`. -/
def include_in_update (m : AttributeMapping) : Bool :=
  m.inc_update && !m.is_autoincrement_key && !m.is_db_key

/-- `AttributeMapping.include_in_select`: `self._select_rank >= 0`. -/
def include_in_select (m : AttributeMapping) : Bool :=
  decide (0 ≤ m.select_rank)

end AttributeMapping

/-- The sort key used by `AttributeMap.__init__`
(`self._mappings.sort(key = AttributeMapping.by_rank)`): ascending
`select_rank`. -/
def rankLE (a b : AttributeMapping) : Prop := a.select_rank ≤ b.select_rank

instance : DecidableRel rankLE := fun a b => Int.decLe a.select_rank b.select_rank

instance : IsTotal AttributeMapping rankLE := ⟨fun _ _ => Int.le_total _ _⟩

instance : IsTrans AttributeMapping rankLE := ⟨fun _ _ _ => Int.le_trans⟩

/-- `wp_repository_elem.AttributeMap` after `__init__`: the table name, the
mapping list sorted ascending by `select_rank` (Python `list.sort` is stable;
modelled by a stable insertion sort), and the auto-increment mapping found by
the constructor loop (the last auto-increment entry of the sorted list). -/
structure AttributeMap where
  table_name : String
  mappings : List AttributeMapping
  auto_increment_attr : Option AttributeMapping

namespace AttributeMap

/-- `AttributeMap.__init__(table_name, attribute_mappings)`. -/
def make (table_name : String) (attribute_mappings : List AttributeMapping) : AttributeMap :=
  let sorted := List.insertionSort rankLE attribute_mappings
  { table_name := table_name
    mappings := sorted
    auto_increment_attr :=
      sorted.foldl (fun acc m => if m.is_autoincrement_key then some m else acc) none }

/-- `AttributeMap.has_auto_increment_key`. -/
def has_auto_increment_key (m : AttributeMap) : Bool := m.auto_increment_attr.isSome

/-- `AttributeMap._select_mappings(bool_attr_name)`: the mappings for which a
boolean property holds, in list order. -/
def select_mappings (m : AttributeMap) (p : AttributeMapping → Bool) : List AttributeMapping :=
  m.mappings.filter p

/-- `AttributeMap.attributes_for_select`. -/
def attributes_for_select (m : AttributeMap) : List AttributeMapping :=
  m.select_mappings AttributeMapping.include_in_select

/-- `AttributeMap.attributes_for_insert`. -/
def attributes_for_insert (m : AttributeMap) : List AttributeMapping :=
  m.select_mappings AttributeMapping.include_in_insert

/-- `AttributeMap.attributes_for_update`. -/
def attributes_for_update (m : AttributeMap) : List AttributeMapping :=
  m.select_mappings AttributeMapping.include_in_update

/-- `AttributeMap.db_key_attributes`. -/
def db_key_attributes (m : AttributeMap) : List AttributeMapping :=
  m.select_mappings AttributeMapping.is_db_key

/-- `AttributeMap.__getitem__(key_value)`: the first mapping whose class
attribute name matches, `None` if there is none. -/
def getItem (m : AttributeMap) (key_value : String) : Option AttributeMapping :=
  m.mappings.find? (fun mp => mp.cl_attr_name == key_value)

end AttributeMap

/-- An entity (a `RepositoryElement` instance) seen through `getattr`: its
attribute values indexed by attribute name. -/
def Entity : Type := String → Value

/-- `setattr(e, n, v)`. -/
def setattr (e : Entity) (n : String) (v : Value) : Entity :=
  fun n' => if n' = n then v else e n'

/-- Python sequence indexing `row[i]`: non-negative indices from the front,
negative indices from the end, `IndexError` when out of range. -/
def pyIndex (row : List Value) (i : Int) : Except PyErr Value :=
  if 0 ≤ i then
    if h : i.toNat < row.length then .ok (row.get ⟨i.toNat, h⟩)
    else .error (.indexError "list index out of range")
  else
    let j := (row.length : Int) + i
    if h : 0 ≤ j ∧ j.toNat < row.length then .ok (row.get ⟨j.toNat, h.2⟩)
    else .error (.indexError "list index out of range")

/-- The loop body of `RepositoryElement.load_row`: for each mapping of the
full mapping list, index the raw row by `select_rank`, convert the value to
the mapping's class attribute type and assign it. -/
def loadRowLoop (row : List Value) : Entity → List AttributeMapping → Except PyErr Entity
  | e, [] => .ok e
  | e, m :: rest => do
      let raw ← pyIndex row m.select_rank
      let cv ← type_conversion m.cl_attr_type raw
      loadRowLoop row (setattr e m.cl_attr_name cv) rest

/-- `RepositoryElement.load_row(cursor_row)` on an entity `e` whose class
declares attribute map `map`. -/
def load_row (e : Entity) (map : AttributeMap) (cursor_row : List Value) : Except PyErr Entity :=
  loadRowLoop cursor_row e map.mappings

/-- The column/value-list loop of `RepositoryElement.insert_statement`:
first mapping appends `db_attr_name` and `?`, the following ones prepend a
comma; each iteration appends the entity's attribute value as a parameter. -/
def insertLoop (e : Entity) : List AttributeMapping → Nat → String → SQLStatement →
    Except PyErr (SQLStatement × String)
  | [], _, value_list, st => .ok (st, value_list)
  | m :: rest, att_no, value_list, st => do
      let st ← if att_no = 0 then st.append_text m.db_attr_name
               else st.append_text (", " ++ m.db_attr_name)
      let value_list := if att_no = 0 then value_list ++ "?" else value_list ++ ", ?"
      insertLoop e rest (att_no + 1) value_list (st.append_param (e m.cl_attr_name))

/-- `RepositoryElement.insert_statement()`. -/
def insert_statement (e : Entity) (map : AttributeMap) : Except PyErr SQLStatement := do
  let ins_stmt := SQLStatement.mkEmpty.set_text ("INSERT INTO " ++ map.table_name ++ " (")
  let (ins_stmt, value_list) ← insertLoop e map.attributes_for_insert 0 " VALUES( " ins_stmt
  ins_stmt.append_text (" ) " ++ value_list ++ " )")

/-- The SET-list loop of `RepositoryElement.update_statement`. -/
def updateLoop (e : Entity) : List AttributeMapping → Nat → SQLStatement →
    Except PyErr SQLStatement
  | [], _, st => .ok st
  | m :: rest, att_no, st => do
      let st ← if att_no = 0 then st.append_text (" " ++ m.db_attr_name ++ " = ?")
               else st.append_text (", " ++ m.db_attr_name ++ " = ?")
      updateLoop e rest (att_no + 1) (st.append_param (e m.cl_attr_name))

/-- The key loop of `RepositoryElement._key_where_clause`. -/
def keyWhereLoop (e : Entity) : List AttributeMapping → Nat → SQLStatement →
    Except PyErr SQLStatement
  | [], _, st => .ok st
  | m :: rest, att_no, st => do
      let st ← if att_no = 0 then st.append_text (" " ++ m.db_attr_name ++ " = ? ")
               else st.append_text (" AND " ++ m.db_attr_name ++ " = ? ")
      keyWhereLoop e rest (att_no + 1) (st.append_param (e m.cl_attr_name))

/-- `RepositoryElement._key_where_clause(sql_stmt)`: ` WHERE ` followed by
`col = ?` for every key attribute, joined by `AND`, the entity's key values
appended as parameters. -/
def key_where_clause (e : Entity) (map : AttributeMap) (sql_stmt : SQLStatement) :
    Except PyErr SQLStatement := do
  let st ← sql_stmt.append_text " WHERE "
  keyWhereLoop e map.db_key_attributes 0 st

/-- `RepositoryElement.update_statement()`. -/
def update_statement (e : Entity) (map : AttributeMap) : Except PyErr SQLStatement := do
  let upd_stmt := SQLStatement.mkEmpty.set_text ("UPDATE " ++ map.table_name ++ " SET ")
  let upd_stmt ← updateLoop e map.attributes_for_update 0 upd_stmt
  key_where_clause e map upd_stmt

/-- `RepositoryElement.delete_statement()`. -/
def delete_statement (e : Entity) (map : AttributeMap) : Except PyErr SQLStatement := do
  let del_stmt := SQLStatement.mkEmpty.set_text ("DELETE FROM " ++ map.table_name ++ " ")
  key_where_clause e map del_stmt

/-- The column loop of `RepositoryElement._select_clause`. -/
def selectLoop : List AttributeMapping → Nat → SQLStatement → Except PyErr SQLStatement
  | [], _, st => .ok st
  | m :: rest, att_no, st => do
      let st ← if att_no = 0 then st.append_text (" " ++ m.db_attr_name)
               else st.append_text (", " ++ m.db_attr_name)
      selectLoop rest (att_no + 1) st

/-- `RepositoryElement._select_clause(sql_stmt)`. -/
def select_clause (map : AttributeMap) (sql_stmt : SQLStatement) : Except PyErr SQLStatement := do
  let st := sql_stmt.set_text "SELECT "
  let st ← selectLoop map.attributes_for_select 0 st
  st.append_text (" FROM " ++ map.table_name ++ " ")

/-- The key loop of `RepositoryElement._key_order_clause`. -/
def keyOrderLoop : List AttributeMapping → Nat → SQLStatement → Except PyErr SQLStatement
  | [], _, st => .ok st
  | m :: rest, att_no, st => do
      let st ← if att_no = 0 then st.append_text m.db_attr_name
               else st.append_text (", " ++ m.db_attr_name)
      keyOrderLoop rest (att_no + 1) st

/-- `RepositoryElement._key_order_clause(sql_stmt)`. -/
def key_order_clause (map : AttributeMap) (sql_stmt : SQLStatement) : Except PyErr SQLStatement := do
  let st ← sql_stmt.append_text " ORDER BY "
  keyOrderLoop map.db_key_attributes 0 st

/-- `RepositoryElement.select_by_key_statement()`. -/
def select_by_key_statement (e : Entity) (map : AttributeMap) : Except PyErr SQLStatement := do
  let sel_stmt ← select_clause map SQLStatement.mkEmpty
  key_where_clause e map sel_stmt

/-- `RepositoryElement.select_all_statement()`. -/
def select_all_statement (map : AttributeMap) : Except PyErr SQLStatement := do
  let sel_stmt ← select_clause map SQLStatement.mkEmpty
  key_order_clause map sel_stmt

/-- Python `str.upper()` (ASCII uppercasing, as applied to the operator
strings of this code base). -/
def pyUpper (s : String) : String := String.mk (s.data.map Char.toUpper)

/-- The operator whitelist of `RepositoryElement._where_clause_term`,
exactly as the source spells it (note the fifth entry). -/
def whereOperators : List String :=
  ["=", "!=", ">", "<", "=>", "<=", "LIKE", "BETWEEN", "IN"]

/-- `RepositoryElement._where_clause_term(sql_stmt, where_term)`: resolve the
attribute name in the map (`ValueError` when absent), check the operator
case-insensitively against the whitelist (`ValueError` when absent), then
append `col op` followed by `? AND ?` for `BETWEEN`, a parenthesized
placeholder per element for `IN`, and a single `?` otherwise, and finally
append the criterion value through `append_param`. -/
def where_clause_term (map : AttributeMap) (sql_stmt : SQLStatement)
    (where_term : String × String × Value) : Except PyErr SQLStatement := do
  let (cond_att, cond_op, cond_val) := where_term
  match map.getItem cond_att with
  | none => .error (.valueError ("Invalid class attribute name: " ++ cond_att))
  | some mapping => do
      if ¬ (whereOperators.contains (pyUpper cond_op)) then
        .error (.valueError ("Invalid where clause operator: " ++ cond_op))
      else do
        let st ← sql_stmt.append_text (" " ++ mapping.db_attr_name ++ " " ++ cond_op ++ " ")
        let st ←
          if pyUpper cond_op = "BETWEEN" then st.append_text "? AND ? "
          else if pyUpper cond_op = "IN" then do
            let n ← pyLen cond_val
            st.append_text ("( " ++ String.intercalate "," (List.replicate n "?") ++ " )")
          else st.append_text " ? "
        .ok (st.append_param cond_val)

/-- The criteria loop of `RepositoryElement.select_where_statement`. -/
def whereTermsLoop (map : AttributeMap) : List (String × String × Value) → Nat → SQLStatement →
    Except PyErr SQLStatement
  | [], _, st => .ok st
  | term :: rest, att_no, st => do
      let st ← if att_no = 0 then st.append_text " WHERE " else st.append_text " AND "
      let st ← where_clause_term map st term
      whereTermsLoop map rest (att_no + 1) st

/-- `RepositoryElement.select_where_statement(where_criteria)`. -/
def select_where_statement (map : AttributeMap) (where_criteria : List (String × String × Value)) :
    Except PyErr SQLStatement := do
  let sel_stmt := { SQLStatement.mkEmpty with stmt_params := [] }
  let sel_stmt ← select_clause map sel_stmt
  let sel_stmt ← whereTermsLoop map where_criteria 0 sel_stmt
  key_order_clause map sel_stmt

/-- The observable state of a `sqlite3.Cursor` after executing an INSERT:
affected row count and last inserted row id. -/
structure Cursor where
  rowcount : Int
  lastrowid : Int

/-- `RepositoryElement.insert(cursor)`: build and execute the INSERT
statement; when the map has an auto-increment key, write `cursor.lastrowid`
into the corresponding entity attribute and return it, otherwise return
`cursor.rowcount`. The database effect of `cursor.execute` is abstracted by
the `Cursor` observation. -/
def element_insert (e : Entity) (map : AttributeMap) (cursor : Cursor) :
    Except PyErr (Entity × Int) := do
  let _ ← insert_statement e map
  let num_rows := cursor.rowcount
  match map.auto_increment_attr with
  | some attr =>
      let auto_key := cursor.lastrowid
      .ok (setattr e attr.cl_attr_name (.vInt auto_key), auto_key)
  | none => .ok (e, num_rows)

/-- `wp_repository_sl3.SQLiteRepository` state: the optional database file
path, the current connection (identified by an abstract id) and the
`_can_close` ownership flag. -/
structure SQLiteRepository where
  sql_file_path : Option String
  sql_connection : Option Nat
  can_close : Bool

namespace SQLiteRepository

/-- `SQLiteRepository.__init__(contents_type, sqlite_file_path,
sql_connection)`: `_can_close = sql_connection is None`. -/
def make (sqlite_file_path : Option String) (sql_connection : Option Nat) : SQLiteRepository :=
  { sql_file_path := sqlite_file_path
    sql_connection := sql_connection
    can_close := sql_connection.isNone }

/-- `SQLiteRepository.close()`: closes the connection only when the instance
may close (`_can_close`) and a connection is held, and then drops the
reference. The second component reports which connection was actually closed
(`none` when the call is a no-op). -/
def close (r : SQLiteRepository) : SQLiteRepository × Option Nat :=
  if r.can_close && r.sql_connection.isSome then
    ({ r with sql_connection := none }, r.sql_connection)
  else (r, none)

end SQLiteRepository

/-- `SQLiteRepository.select_by_key(source_element)`: build the key SELECT
from the source element, execute it, and either return `None` when
`fetchone()` yields no row, or a freshly constructed contents instance
(`ctor`, the result of `self._contents_type()`) populated by `load_row` from
the single row. The fetch result stands in for the database. -/
def select_by_key (ctor : Entity) (source_element : Entity) (map : AttributeMap)
    (fetched : Option (List Value)) : Except PyErr (Option Entity) := do
  let _ ← select_by_key_statement source_element map
  match fetched with
  | none => .ok none
  | some row => do
      let res ← load_row ctor map row
      .ok (some res)

/-! ### Concrete fixtures from the specification's example (§8) -/

/-- The example attribute map: table `person`, key column `name_col`
(string, non-auto, rank 0), then `age_col` (int), `weight_col` (decimal)
and `ec_col` (string). -/
def personMap : AttributeMap :=
  AttributeMap.make "person"
    [ ⟨0, "name", .pStr, "name_col", 1, true, true⟩,
      ⟨1, "age", .pInt, "age_col", 0, true, true⟩,
      ⟨2, "weight", .pFloat, "weight_col", 0, true, true⟩,
      ⟨3, "eye_color", .pStr, "ec_col", 0, true, true⟩ ]

/-- The example entity: `name='John', age=35, weight=84.6, eye_color='brown'`. -/
def john : Entity := fun n =>
  if n = "name" then .vStr "John"
  else if n = "age" then .vInt 35
  else if n = "weight" then .vFloat (423 / 5)
  else if n = "eye_color" then .vStr "brown"
  else .vNone

/-- A freshly constructed entity with no attribute assigned yet
(`RepositoryElement()`; absent attributes read as `None`). -/
def defaultEntity : Entity := fun _ => .vNone

/-! ### Rendered clause shapes (for stating builder correctness) -/

/-- Concatenation of a list of strings. -/
def strConcat : List String → String
  | [] => ""
  | s :: rest => s ++ strConcat rest

/-- The SET list rendered the way `update_statement`'s loop produces it:
` col = ?` for the first column, `, col = ?` for the following ones. -/
def setClauseText : List AttributeMapping → String
  | [] => ""
  | m :: rest =>
      " " ++ m.db_attr_name ++ " = ?" ++
        strConcat (rest.map (fun m' => ", " ++ m'.db_attr_name ++ " = ?"))

/-- The key WHERE body rendered the way `_key_where_clause`'s loop produces
it: ` col = ? ` for the first key column, ` AND col = ? ` for the rest. -/
def keyWhereText : List AttributeMapping → String
  | [] => ""
  | k :: rest =>
      " " ++ k.db_attr_name ++ " = ? " ++
        strConcat (rest.map (fun k' => " AND " ++ k'.db_attr_name ++ " = ? "))

/-- The parameters a loop appends for a list of mappings: the entity's value
for each mapping, expanded by `append_param`'s list rule, in mapping order. -/
def paramsOf (e : Entity) : List AttributeMapping → List Value
  | [] => []
  | m :: rest => appendedParams (e m.cl_attr_name) ++ paramsOf e rest

/-! ### Further fixtures for the claims -/

/-- An auto-increment key mapping (`db_key = 2`). -/
def idMapping : AttributeMapping := ⟨0, "id", .pInt, "id_col", 2, true, true⟩

/-- A table with an auto-increment key `id_col` and one data column. -/
def autoMap : AttributeMap :=
  AttributeMap.make "items" [idMapping, ⟨1, "val", .pStr, "val_col", 0, true, true⟩]

/-- A mapping with negative `select_rank`, hence excluded from SELECT. -/
def negRankMapping : AttributeMapping := ⟨-1, "hidden", .pStr, "hidden_col", 0, true, true⟩

/-- A map containing the negative-rank mapping next to an ordinary one. -/
def negRankMap : AttributeMap :=
  AttributeMap.make "t" [negRankMapping, ⟨0, "a", .pStr, "a_col", 0, true, true⟩]

/-- A map whose second mapping sits at enumeration position 1 but has
`select_rank = 2`: rank-based indexing reads the third row column for it. -/
def rankGapMap : AttributeMap :=
  AttributeMap.make "t"
    [⟨0, "a", .pStr, "a_col", 0, true, true⟩, ⟨2, "b", .pStr, "b_col", 0, true, true⟩]

/-- The entity produced by loading `[x, y, z]` through `rankGapMap`:
attribute `b` receives row column 2 (its rank), not row column 1 (its
enumeration position). -/
def gapLoaded : Entity :=
  setattr (setattr defaultEntity "a" (.vStr "x")) "b" (.vStr "z")

/-! ### Helper lemmas about the loops of the statement builders -/

theorem append_param_eq (st : SQLStatement) (p : Value) :
    st.append_param p = { st with stmt_params := st.stmt_params ++ appendedParams p } := by
  cases p <;> rfl

theorem updateLoop_succ (e : Entity) (ms : List AttributeMapping) :
    ∀ (n : Nat) (t : String) (ps : List Value),
      updateLoop e ms (n + 1) ⟨some t, ps⟩ =
        .ok ⟨some (t ++ strConcat (ms.map (fun m => ", " ++ m.db_attr_name ++ " = ?"))),
             ps ++ paramsOf e ms⟩ := by
  induction ms with
  | nil => intro n t ps; simp [updateLoop, strConcat, paramsOf]
  | cons m rest ih =>
      intro n t ps
      simp only [updateLoop, Nat.succ_ne_zero, if_false, SQLStatement.append_text,
        append_param_eq, Except.bind, List.map_cons, strConcat, paramsOf, bind, ih]
      simp [String.append_assoc, List.append_assoc]

theorem updateLoop_zero (e : Entity) (ms : List AttributeMapping) (t : String)
    (ps : List Value) :
    updateLoop e ms 0 ⟨some t, ps⟩ =
      .ok ⟨some (t ++ setClauseText ms), ps ++ paramsOf e ms⟩ := by
  cases ms with
  | nil => simp [updateLoop, setClauseText, paramsOf]
  | cons m rest =>
      simp only [updateLoop, if_pos rfl, SQLStatement.append_text, append_param_eq,
        Except.bind, bind, setClauseText, paramsOf, updateLoop_succ]
      simp [String.append_assoc, List.append_assoc]

theorem keyWhereLoop_succ (e : Entity) (ms : List AttributeMapping) :
    ∀ (n : Nat) (t : String) (ps : List Value),
      keyWhereLoop e ms (n + 1) ⟨some t, ps⟩ =
        .ok ⟨some (t ++ strConcat (ms.map (fun m => " AND " ++ m.db_attr_name ++ " = ? "))),
             ps ++ paramsOf e ms⟩ := by
  induction ms with
  | nil => intro n t ps; simp [keyWhereLoop, strConcat, paramsOf]
  | cons m rest ih =>
      intro n t ps
      simp only [keyWhereLoop, Nat.succ_ne_zero, if_false, SQLStatement.append_text,
        append_param_eq, Except.bind, List.map_cons, strConcat, paramsOf, bind, ih]
      simp [String.append_assoc, List.append_assoc]

theorem keyWhereLoop_zero (e : Entity) (ms : List AttributeMapping) (t : String)
    (ps : List Value) :
    keyWhereLoop e ms 0 ⟨some t, ps⟩ =
      .ok ⟨some (t ++ keyWhereText ms), ps ++ paramsOf e ms⟩ := by
  cases ms with
  | nil => simp [keyWhereLoop, keyWhereText, paramsOf]
  | cons m rest =>
      simp only [keyWhereLoop, if_pos rfl, SQLStatement.append_text, append_param_eq,
        Except.bind, bind, keyWhereText, paramsOf, keyWhereLoop_succ]
      simp [String.append_assoc, List.append_assoc]

theorem key_where_clause_eq (e : Entity) (map : AttributeMap) (t : String)
    (ps : List Value) :
    key_where_clause e map ⟨some t, ps⟩ =
      .ok ⟨some (t ++ " WHERE " ++ keyWhereText map.db_key_attributes),
           ps ++ paramsOf e map.db_key_attributes⟩ := by
  simp [key_where_clause, SQLStatement.append_text, bind, Except.bind, keyWhereLoop_zero]

theorem update_statement_eq (e : Entity) (map : AttributeMap) :
    update_statement e map =
      .ok ⟨some ("UPDATE " ++ map.table_name ++ " SET "
              ++ setClauseText map.attributes_for_update
              ++ " WHERE " ++ keyWhereText map.db_key_attributes),
           paramsOf e map.attributes_for_update ++ paramsOf e map.db_key_attributes⟩ := by
  simp [update_statement, SQLStatement.mkEmpty, SQLStatement.set_text, bind, Except.bind,
    updateLoop_zero, key_where_clause_eq, String.append_assoc]

theorem mem_attributes_for_update (map : AttributeMap) (mp : AttributeMapping)
    (h : mp ∈ map.attributes_for_update) :
    mp.is_db_key = false ∧ mp.is_autoincrement_key = false := by
  unfold AttributeMap.attributes_for_update AttributeMap.select_mappings at h
  rw [List.mem_filter] at h
  have h2 := h.2
  unfold AttributeMapping.include_in_update at h2
  constructor
  · rcases Bool.and_eq_true_iff.mp h2 with ⟨-, hk⟩
    simpa using hk
  · rcases Bool.and_eq_true_iff.mp h2 with ⟨hl, -⟩
    rcases Bool.and_eq_true_iff.mp hl with ⟨-, ha⟩
    simpa using ha

theorem make_mappings_sorted (tn : String) (l : List AttributeMapping) :
    List.Sorted rankLE (AttributeMap.make tn l).mappings := by
  simpa [AttributeMap.make] using List.sorted_insertionSort rankLE l

theorem make_db_key_attributes_sorted (tn : String) (l : List AttributeMapping) :
    List.Sorted rankLE ((AttributeMap.make tn l).db_key_attributes) := by
  exact List.Pairwise.filter _ (make_mappings_sorted tn l)

theorem insertLoop_ok (e : Entity) (ms : List AttributeMapping) :
    ∀ (n : Nat) (vl t : String) (ps : List Value),
      ∃ t' ps' vl', insertLoop e ms n vl ⟨some t, ps⟩ = .ok (⟨some t', ps'⟩, vl') := by
  induction ms with
  | nil => intro n vl t ps; exact ⟨t, ps, vl, rfl⟩
  | cons m rest ih =>
      intro n vl t ps
      cases n with
      | zero =>
          obtain ⟨t', ps', vl', h⟩ :=
            ih 1 (vl ++ "?") (t ++ m.db_attr_name) (ps ++ appendedParams (e m.cl_attr_name))
          exact ⟨t', ps', vl', by
            simp [insertLoop, SQLStatement.append_text, append_param_eq, bind, Except.bind, h]⟩
      | succ k =>
          obtain ⟨t', ps', vl', h⟩ :=
            ih (k + 2) (vl ++ ", ?") (t ++ (", " ++ m.db_attr_name))
              (ps ++ appendedParams (e m.cl_attr_name))
          exact ⟨t', ps', vl', by
            simp [insertLoop, SQLStatement.append_text, append_param_eq, bind, Except.bind, h]⟩

theorem insert_statement_ok (e : Entity) (map : AttributeMap) :
    ∃ st, insert_statement e map = .ok st := by
  obtain ⟨t', ps', vl', h⟩ :=
    insertLoop_ok e map.attributes_for_insert 0 " VALUES( "
      ("INSERT INTO " ++ map.table_name ++ " (") []
  refine ⟨⟨some (t' ++ (" ) " ++ vl' ++ " )")), ps'⟩, ?_⟩
  simp [insert_statement, SQLStatement.mkEmpty, SQLStatement.set_text, bind, Except.bind, h,
    SQLStatement.append_text]

theorem selectLoop_ok (ms : List AttributeMapping) :
    ∀ (n : Nat) (t : String) (ps : List Value),
      ∃ t', selectLoop ms n ⟨some t, ps⟩ = .ok ⟨some t', ps⟩ := by
  induction ms with
  | nil => intro n t ps; exact ⟨t, rfl⟩
  | cons m rest ih =>
      intro n t ps
      cases n with
      | zero =>
          obtain ⟨t', h⟩ := ih 1 (t ++ (" " ++ m.db_attr_name)) ps
          exact ⟨t', by simp [selectLoop, SQLStatement.append_text, bind, Except.bind, h]⟩
      | succ k =>
          obtain ⟨t', h⟩ := ih (k + 2) (t ++ (", " ++ m.db_attr_name)) ps
          exact ⟨t', by simp [selectLoop, SQLStatement.append_text, bind, Except.bind, h]⟩

theorem select_clause_ok (map : AttributeMap) (st : SQLStatement) :
    ∃ t', select_clause map st = .ok ⟨some t', st.stmt_params⟩ := by
  obtain ⟨t', h⟩ := selectLoop_ok map.attributes_for_select 0 "SELECT " st.stmt_params
  exact ⟨t' ++ (" FROM " ++ map.table_name ++ " "), by
    simp [select_clause, SQLStatement.set_text, bind, Except.bind, h, SQLStatement.append_text]⟩

theorem select_by_key_statement_ok (e : Entity) (map : AttributeMap) :
    ∃ st, select_by_key_statement e map = .ok st := by
  obtain ⟨t', h⟩ := select_clause_ok map SQLStatement.mkEmpty
  refine ⟨⟨some (t' ++ " WHERE " ++ keyWhereText map.db_key_attributes),
    SQLStatement.mkEmpty.stmt_params ++ paramsOf e map.db_key_attributes⟩, ?_⟩
  simp only [select_by_key_statement, bind, Except.bind, h, key_where_clause_eq]

/-! ### Helper lemmas about row loading -/

theorem type_conversion_pStr_ok (v : Value) :
    ∃ cv, type_conversion .pStr v = .ok cv := by
  cases v <;> simp [type_conversion, isinstance, genericConv]

theorem pyIndex_neg_one (row : List Value) (h : row ≠ []) :
    pyIndex row (-1) = .ok (row.getLast h) := by
  have hlen : 0 < row.length := List.length_pos.mpr h
  have htn : ((row.length : Int) + -1).toNat = row.length - 1 := by omega
  simp only [pyIndex]
  rw [if_neg (by omega)]
  rw [dif_pos ⟨by omega, by omega⟩]
  congr 1
  rw [List.getLast_eq_getElem, List.get_eq_getElem]
  congr 1

theorem pyIndex_nonneg (row : List Value) (i : Nat) (h : i < row.length) :
    pyIndex row (i : Int) = .ok (row.get ⟨i, h⟩) := by
  simp only [pyIndex]
  rw [if_pos (by omega)]
  rw [dif_pos (by simpa using h)]
  simp

theorem pyIndex_zero (row : List Value) (h0 : 0 < row.length) :
    pyIndex row 0 = .ok (row.get ⟨0, h0⟩) := by
  simp only [pyIndex]
  rw [if_pos (by omega)]
  rw [dif_pos (by simpa using h0)]
  rfl

theorem loadRowLoop_not_mem (row : List Value) (ms : List AttributeMapping) :
    ∀ (e e' : Entity), loadRowLoop row e ms = .ok e' →
      ∀ name, name ∉ ms.map AttributeMapping.cl_attr_name → e' name = e name := by
  induction ms with
  | nil => intro e e' h name _; cases h; rfl
  | cons m rest ih =>
      intro e e' h name hmem
      simp only [List.map_cons, List.mem_cons, not_or] at hmem
      obtain ⟨hne, hnotin⟩ := hmem
      simp only [loadRowLoop, bind, Except.bind] at h
      split at h
      · cases h
      · split at h
        · cases h
        · have := ih _ _ h name hnotin
          rw [this]
          simp [setattr, hne]

theorem loadRowLoop_reads (row : List Value) (ms : List AttributeMapping) :
    ∀ (e e' : Entity), loadRowLoop row e ms = .ok e' →
      (ms.map AttributeMapping.cl_attr_name).Nodup →
      ∀ mp ∈ ms, ∃ raw cv, pyIndex row mp.select_rank = .ok raw ∧
        type_conversion mp.cl_attr_type raw = .ok cv ∧ e' mp.cl_attr_name = cv := by
  induction ms with
  | nil => intro e e' _ _ mp hmp; cases hmp
  | cons m rest ih =>
      intro e e' h hnd mp hmp
      simp only [List.map_cons, List.nodup_cons] at hnd
      obtain ⟨hhead, htail⟩ := hnd
      simp only [loadRowLoop, bind, Except.bind] at h
      split at h
      · cases h
      · rename_i raw hraw
        split at h
        · cases h
        · rename_i cv hcv
          rcases List.mem_cons.mp hmp with rfl | hrest
          · refine ⟨raw, cv, hraw, hcv, ?_⟩
            have := loadRowLoop_not_mem row rest _ _ h mp.cl_attr_name hhead
            rw [this]
            simp [setattr]
          · exact ih _ _ h htail mp hrest

/-! ### The claims -/

/-- Claim C1: the claim says a criterion whose attribute resolves builds
successfully exactly when the operator (case-insensitively) is one of
`=, !=, >, <, >=, <=, LIKE, BETWEEN, IN`. The code's whitelist spells the
fifth operator `=>` instead of `>=` (its own docstring lists `>=`): building
with `>=` fails with the invalid-operator `ValueError`, while the
undocumented `=>` is accepted. -/
theorem claim_C1_operator_whitelist :
    select_where_statement personMap [("age", ">=", .vInt 21)]
      = .error (.valueError "Invalid where clause operator: >=")
  ∧ (∃ st, select_where_statement personMap [("age", "=>", .vInt 21)] = .ok st)
  ∧ ">=" ∉ whereOperators
  ∧ "=>" ∈ whereOperators :=
  ⟨rfl, ⟨_, rfl⟩, by simp [whereOperators], by simp [whereOperators]⟩

/-- Claim C5: `close()` is a no-op unless the repository owns an open
connection; a second `close()` in a row is always a no-op; a repository
constructed around an externally supplied connection never closes it; and a
`close()` that actually closes leaves no connection reference behind. -/
theorem claim_C5_close_semantics :
    (∀ r : SQLiteRepository, ¬(r.can_close = true ∧ r.sql_connection.isSome = true) →
        r.close = (r, none))
  ∧ (∀ r : SQLiteRepository, (r.close.1).close = (r.close.1, none))
  ∧ (∀ (p : Option String) (c : Nat),
        (SQLiteRepository.make p (some c)).close = (SQLiteRepository.make p (some c), none))
  ∧ (∀ (r r' : SQLiteRepository) (c : Nat), r.close = (r', some c) →
        r'.sql_connection = none) := by
  refine ⟨?_, ?_, ?_, ?_⟩
  · intro r h
    have hb : (r.can_close && r.sql_connection.isSome) = false := by
      rcases Bool.eq_false_or_eq_true (r.can_close && r.sql_connection.isSome) with ht | hf
      · exact absurd (Bool.and_eq_true_iff.mp ht) h
      · exact hf
    simp [SQLiteRepository.close, hb]
  · intro r
    by_cases hb : (r.can_close && r.sql_connection.isSome) = true
    · simp [SQLiteRepository.close, hb]
    · simp only [Bool.not_eq_true] at hb
      simp [SQLiteRepository.close, hb]
  · intro p c
    simp [SQLiteRepository.close, SQLiteRepository.make]
  · intro r r' c h
    by_cases hb : (r.can_close && r.sql_connection.isSome) = true
    · simp only [SQLiteRepository.close, hb, if_true] at h
      have h1 := congrArg Prod.fst h
      simp only at h1
      rw [← h1]
    · simp only [Bool.not_eq_true] at hb
      simp only [SQLiteRepository.close, hb] at h
      have h2 := congrArg Prod.snd h
      simp at h2

/-- Claim C5 witness: the closed facts at concrete repositories — an
externally supplied connection is not closed, and a second close after a
real close is a no-op. -/
theorem claim_C5_witness :
    (SQLiteRepository.make none (some 5)).close = (SQLiteRepository.make none (some 5), none)
  ∧ ((SQLiteRepository.make (some "db") none).close.1).close
      = ((SQLiteRepository.make (some "db") none).close.1, none) :=
  ⟨claim_C5_close_semantics.2.2.1 none 5,
   claim_C5_close_semantics.2.1 (SQLiteRepository.make (some "db") none)⟩

/-- Claim C8: for the `person` example (`name='John', age=35, weight=84.6,
eye_color='brown'`, key `name_col` at the lowest rank), `update_statement`
yields a SET clause over `age_col, weight_col, ec_col`, a WHERE clause
`name_col = ?` and the parameters `[35, 84.6, 'brown', 'John']` in exactly
that order; `insert_statement` lists `name_col, age_col, weight_col, ec_col`
with one placeholder per column and the entity's values in the same order. -/
theorem claim_C8_person_example :
    update_statement john personMap =
      .ok ⟨some "UPDATE person SET  age_col = ?, weight_col = ?, ec_col = ? WHERE  name_col = ? ",
           [.vInt 35, .vFloat (423 / 5), .vStr "brown", .vStr "John"]⟩
  ∧ insert_statement john personMap =
      .ok ⟨some "INSERT INTO person (name_col, age_col, weight_col, ec_col )  VALUES( ?, ?, ?, ? )",
           [.vStr "John", .vInt 35, .vFloat (423 / 5), .vStr "brown"]⟩ :=
  ⟨rfl, rfl⟩

/-- Claim C9: a fresh `SQLStatement` has `stmt_text = None` (not the empty
string), `append_text` before any assignment raises, and `append_text` after
the text has been set appends and succeeds. -/
theorem claim_C9_stmt_text_none :
    SQLStatement.mkEmpty.stmt_text = none
  ∧ (∀ s, ∃ err, SQLStatement.mkEmpty.append_text s = .error err)
  ∧ (∀ (st : SQLStatement) (s t : String), st.stmt_text = some t →
      st.append_text s = .ok { st with stmt_text := some (t ++ s) }) := by
  refine ⟨rfl, fun s => ⟨_, rfl⟩, fun st s t h => ?_⟩
  simp [SQLStatement.append_text, h]

/-- Claim C9 witness: appending to a statement whose text was set
succeeds with the concatenated text. -/
theorem claim_C9_witness :
    (SQLStatement.mkEmpty.set_text "SELECT ").append_text "x"
      = .ok ⟨some "SELECT x", []⟩ :=
  claim_C9_stmt_text_none.2.2 (SQLStatement.mkEmpty.set_text "SELECT ") "x" "SELECT " rfl

/-- Claim C2: for any constructed AttributeMap, the UPDATE statement's SET
list ranges exactly over `attributes_for_update` — which contains no key and
no auto-increment column — its WHERE clause is exactly the key columns of
the map as `col = ?` joined by `AND` in ascending `select_rank` order, and
the key parameter values follow the SET parameter values. -/
theorem claim_C2_update_statement_shape (tn : String) (l : List AttributeMapping) (e : Entity) :
    update_statement e (AttributeMap.make tn l) =
      .ok ⟨some ("UPDATE " ++ tn ++ " SET "
              ++ setClauseText ((AttributeMap.make tn l).attributes_for_update)
              ++ " WHERE " ++ keyWhereText ((AttributeMap.make tn l).db_key_attributes)),
           paramsOf e ((AttributeMap.make tn l).attributes_for_update)
             ++ paramsOf e ((AttributeMap.make tn l).db_key_attributes)⟩
  ∧ (∀ mp ∈ (AttributeMap.make tn l).attributes_for_update,
        mp.is_db_key = false ∧ mp.is_autoincrement_key = false)
  ∧ (AttributeMap.make tn l).db_key_attributes
      = ((AttributeMap.make tn l).mappings.filter AttributeMapping.is_db_key)
  ∧ List.Sorted rankLE ((AttributeMap.make tn l).db_key_attributes) := by
  refine ⟨?_, fun mp hmp => mem_attributes_for_update _ mp hmp, rfl,
    make_db_key_attributes_sorted tn l⟩
  exact update_statement_eq e (AttributeMap.make tn l)

/-- Claim C2 witness: the SET-list exclusion facts obtained from the claim
theorem for the `age` column of the person example. -/
theorem claim_C2_witness :
    (⟨1, "age", .pInt, "age_col", 0, true, true⟩ : AttributeMapping).is_db_key = false ∧
    (⟨1, "age", .pInt, "age_col", 0, true, true⟩ : AttributeMapping).is_autoincrement_key = false :=
  (claim_C2_update_statement_shape "person"
      [ ⟨0, "name", .pStr, "name_col", 1, true, true⟩,
        ⟨1, "age", .pInt, "age_col", 0, true, true⟩,
        ⟨2, "weight", .pFloat, "weight_col", 0, true, true⟩,
        ⟨3, "eye_color", .pStr, "ec_col", 0, true, true⟩ ] john).2.1
    ⟨1, "age", .pInt, "age_col", 0, true, true⟩ (by decide)

/-- Claim C3: executing `insert` on an entity whose map declares an
auto-increment key writes `cursor.lastrowid` into the corresponding attribute
and returns it; with no auto-increment key the entity is left unchanged and
the cursor's affected row count (0 or 1) is returned. -/
theorem claim_C3_insert_result (e : Entity) (map : AttributeMap) (cur : Cursor) :
    (∀ attr, map.auto_increment_attr = some attr →
        element_insert e map cur =
          .ok (setattr e attr.cl_attr_name (.vInt cur.lastrowid), cur.lastrowid))
  ∧ (map.auto_increment_attr = none →
        element_insert e map cur = .ok (e, cur.rowcount))
  ∧ (map.auto_increment_attr = none → (cur.rowcount = 0 ∨ cur.rowcount = 1) →
        ∃ n, element_insert e map cur = .ok (e, n) ∧ (n = 0 ∨ n = 1)) := by
  obtain ⟨st, hst⟩ := insert_statement_ok e map
  refine ⟨?_, ?_, ?_⟩
  · intro attr ha
    simp [element_insert, bind, Except.bind, hst, ha]
  · intro ha
    simp [element_insert, bind, Except.bind, hst, ha]
  · intro ha hrc
    exact ⟨cur.rowcount, by simp [element_insert, bind, Except.bind, hst, ha], hrc⟩

/-- Claim C3 witness: a concrete insert through a map with an auto-increment
key writes the generated key back, and one through the person map (no
auto-increment key) leaves the entity unchanged and returns the row count. -/
theorem claim_C3_witness :
    element_insert defaultEntity autoMap ⟨1, 42⟩ =
      .ok (setattr defaultEntity "id" (.vInt 42), 42)
  ∧ element_insert john personMap ⟨1, 99⟩ = .ok (john, 1) :=
  ⟨(claim_C3_insert_result defaultEntity autoMap ⟨1, 42⟩).1 idMapping rfl,
   (claim_C3_insert_result john personMap ⟨1, 99⟩).2.1 rfl⟩

/-- Claim C6: `select_by_key` returns no entity exactly when the fetch
produced no row; a returned entity is the freshly constructed contents
instance populated by `load_row` from the single fetched row; and the result
does not depend on the source entity passed as the key carrier. -/
theorem claim_C6_select_by_key (ctor source : Entity) (map : AttributeMap)
    (fetched : Option (List Value)) :
    (fetched = none → select_by_key ctor source map fetched = .ok none)
  ∧ (∀ res, select_by_key ctor source map fetched = .ok (some res) →
        ∃ row, fetched = some row ∧ load_row ctor map row = .ok res)
  ∧ (∀ source₂, select_by_key ctor source map fetched =
        select_by_key ctor source₂ map fetched) := by
  obtain ⟨st, hst⟩ := select_by_key_statement_ok source map
  refine ⟨?_, ?_, ?_⟩
  · intro h
    subst h
    simp [select_by_key, bind, Except.bind, hst]
  · intro res h
    cases fetched with
    | none => simp [select_by_key, bind, Except.bind, hst] at h
    | some row =>
        refine ⟨row, rfl, ?_⟩
        simp only [select_by_key, bind, Except.bind, hst] at h
        split at h
        · cases h
        · rename_i e2 hl
          cases h
          exact hl
  · intro source₂
    obtain ⟨st₂, hst₂⟩ := select_by_key_statement_ok source₂ map
    simp [select_by_key, bind, Except.bind, hst, hst₂]

/-- Claim C6 witness: with no fetched row the result is `None`, and the
result for a fetched row does not depend on the source element. -/
theorem claim_C6_witness :
    select_by_key defaultEntity john personMap none = .ok none
  ∧ select_by_key defaultEntity john personMap
        (some [.vStr "Ann", .vInt 3, .vFloat 1, .vStr "blue"]) =
      select_by_key defaultEntity defaultEntity personMap
        (some [.vStr "Ann", .vInt 3, .vFloat 1, .vStr "blue"]) :=
  ⟨(claim_C6_select_by_key defaultEntity john personMap none).1 rfl,
   (claim_C6_select_by_key defaultEntity john personMap
      (some [.vStr "Ann", .vInt 3, .vFloat 1, .vStr "blue"])).2.2 defaultEntity⟩

/-- Claim C7: for a resolving criterion with operator `BETWEEN` (any case)
and value `[lo, hi]`, the clause appends exactly `? AND ? ` (two
placeholders) and the two bounds individually as parameters; with operator
`IN` and a non-empty list value, it appends one placeholder per element,
parenthesized, and each element individually as a parameter. -/
theorem claim_C7_between_in_params (map : AttributeMap) (st : SQLStatement)
    (t attr op : String) (mapping : AttributeMapping) (lo hi : Value) (elems : List Value)
    (hmap : map.getItem attr = some mapping) (ht : st.stmt_text = some t) :
    (pyUpper op = "BETWEEN" →
        where_clause_term map st (attr, op, .vList [lo, hi]) =
          .ok ⟨some (t ++ (" " ++ mapping.db_attr_name ++ " " ++ op ++ " ") ++ "? AND ? "),
               st.stmt_params ++ [lo, hi]⟩)
  ∧ (pyUpper op = "IN" → elems ≠ [] →
        where_clause_term map st (attr, op, .vList elems) =
          .ok ⟨some (t ++ (" " ++ mapping.db_attr_name ++ " " ++ op ++ " ")
                 ++ ("( " ++ String.intercalate "," (List.replicate elems.length "?") ++ " )")),
               st.stmt_params ++ elems⟩) := by
  constructor
  · intro hop
    simp [where_clause_term, hmap, hop, SQLStatement.append_text, ht,
      append_param_eq, appendedParams, bind, Except.bind, String.append_assoc,
      whereOperators]
  · intro hop _
    simp [where_clause_term, hmap, hop, SQLStatement.append_text, ht,
      append_param_eq, appendedParams, pyLen, bind, Except.bind, String.append_assoc,
      whereOperators]

/-- Claim C7 witness: concrete `between` (lower case) and `In` (mixed case)
criteria against the person map. -/
theorem claim_C7_witness :
    where_clause_term personMap (SQLStatement.mkEmpty.set_text "SELECT x FROM person ")
        ("age", "between", .vList [.vInt 21, .vInt 30]) =
      .ok ⟨some "SELECT x FROM person  age_col between ? AND ? ",
           [.vInt 21, .vInt 30]⟩
  ∧ where_clause_term personMap (SQLStatement.mkEmpty.set_text "SELECT x FROM person ")
        ("eye_color", "In", .vList [.vStr "blue", .vStr "green", .vStr "brown"]) =
      .ok ⟨some "SELECT x FROM person  ec_col In ( ?,?,? )",
           [.vStr "blue", .vStr "green", .vStr "brown"]⟩ :=
  ⟨(claim_C7_between_in_params personMap (SQLStatement.mkEmpty.set_text "SELECT x FROM person ")
      "SELECT x FROM person " "age" "between" ⟨1, "age", .pInt, "age_col", 0, true, true⟩
      (.vInt 21) (.vInt 30) [] rfl rfl).1 rfl,
   (claim_C7_between_in_params personMap (SQLStatement.mkEmpty.set_text "SELECT x FROM person ")
      "SELECT x FROM person " "eye_color" "In" ⟨3, "eye_color", .pStr, "ec_col", 0, true, true⟩
      .vNone .vNone [.vStr "blue", .vStr "green", .vStr "brown"] rfl rfl).2 rfl (by simp)⟩

/-- Claim C4: `load_row` processes the full mapping list and assigns, for
each mapping, the type-coerced raw value indexed by `select_rank` (never by
enumeration position — in `rankGapMap` the second mapping receives row
column 2, not row column 1); coercion keeps a value of the target type
unchanged, parses textual timestamps with the fractional format exactly when
a dot is present, and fails on an impossible generic conversion. -/
theorem claim_C4_load_row_conversion :
    (∀ (e e' : Entity) (map : AttributeMap) (row : List Value),
        load_row e map row = .ok e' →
        (map.mappings.map AttributeMapping.cl_attr_name).Nodup →
        ∀ mp ∈ map.mappings, ∃ raw cv,
          pyIndex row mp.select_rank = .ok raw ∧
          type_conversion mp.cl_attr_type raw = .ok cv ∧
          e' mp.cl_attr_name = cv)
  ∧ (∀ (ty : PType) (v : Value), isinstance v ty = true → type_conversion ty v = .ok v)
  ∧ type_conversion .pDatetime (.vStr "2021-03-04 05:06:07.25")
      = .ok (.vDatetime ⟨2021, 3, 4, 5, 6, 7, 250000⟩)
  ∧ type_conversion .pDatetime (.vStr "2021-03-04 05:06:07")
      = .ok (.vDatetime ⟨2021, 3, 4, 5, 6, 7, 0⟩)
  ∧ (∃ err, type_conversion .pInt (.vStr "not-a-number") = .error err)
  ∧ (load_row defaultEntity rankGapMap [.vStr "x", .vStr "y", .vStr "z"] = .ok gapLoaded
       ∧ gapLoaded "b" = .vStr "z") := by
  refine ⟨fun e e' map row h hnd mp hmp =>
      loadRowLoop_reads row map.mappings e e' h hnd mp hmp,
    fun ty v hi => ?_, rfl, rfl, ⟨_, rfl⟩, rfl, rfl⟩
  simp [type_conversion, hi]

/-- Claim C4 witness: the general row-loading conjunct applied to the
rank-gap fixture, showing attribute `b` (enumeration position 1) reads row
index 2. -/
theorem claim_C4_witness :
    ∃ raw cv, pyIndex [.vStr "x", .vStr "y", .vStr "z"] (2 : Int) = .ok raw ∧
      type_conversion .pStr raw = .ok cv ∧ gapLoaded "b" = cv :=
  claim_C4_load_row_conversion.1 defaultEntity gapLoaded rankGapMap
    [.vStr "x", .vStr "y", .vStr "z"] rfl (by decide)
    ⟨2, "b", .pStr, "b_col", 0, true, true⟩ (by decide)

/-- Claim C10: a mapping with `select_rank = -1` is excluded from the SELECT
column list, yet `load_row` still processes it: Python's negative indexing
makes it read the last column of any non-empty raw row and silently assign
that value's coercion to the attribute. -/
theorem claim_C10_negative_rank :
    negRankMapping.include_in_select = false
  ∧ (∀ (row : List Value) (h : row ≠ []), pyIndex row (-1) = .ok (row.getLast h))
  ∧ (∀ (row : List Value) (h : row ≠ []),
        ∃ e' cv, load_row defaultEntity negRankMap row = .ok e' ∧
          type_conversion .pStr (row.getLast h) = .ok cv ∧ e' "hidden" = cv) := by
  refine ⟨rfl, pyIndex_neg_one, ?_⟩
  intro row h
  obtain ⟨cv1, hcv1⟩ := type_conversion_pStr_ok (row.getLast h)
  have h0 : 0 < row.length := List.length_pos.mpr h
  obtain ⟨cv2, hcv2⟩ := type_conversion_pStr_ok (row.get ⟨0, h0⟩)
  refine ⟨setattr (setattr defaultEntity "hidden" cv1) "a" cv2, cv1, ?_, hcv1, ?_⟩
  · show loadRowLoop row defaultEntity
      [negRankMapping, ⟨0, "a", .pStr, "a_col", 0, true, true⟩] = _
    simp only [loadRowLoop, bind, Except.bind, negRankMapping,
      pyIndex_neg_one row h, hcv1, pyIndex_zero row h0, hcv2]
  · simp [setattr]

/-- Claim C10 witness: loading a concrete two-column row through the
negative-rank map assigns the last column to the hidden attribute. -/
theorem claim_C10_witness :
    ∃ e' cv, load_row defaultEntity negRankMap [.vStr "x", .vInt 7] = .ok e' ∧
      type_conversion .pStr (([.vStr "x", .vInt 7] : List Value).getLast (by simp)) = .ok cv ∧
      e' "hidden" = cv :=
  claim_C10_negative_rank.2.2 [.vStr "x", .vInt 7] (by simp)

end WpRepository
